import Mathlib

/-!
Shallow embedding of the payment-instrument data layer of the
authorizesauce repository (file authorize/data.py): credit cards,
billing addresses and eCheck accounts, together with their validation
logic.  Strings are modelled over ASCII (the regexes in the source only
ever meet ASCII input in this code base), Python exceptions become an
explicit error type, and the ambient clock of datetime.now() becomes an
explicit parameter.
-/

namespace AuthorizeSauce

/-- Errors a validation call can surface: the library exception
AuthorizeInvalidError carrying its message, or a Python AttributeError
(raised when a method is looked up on None). -/
inductive PyError where
  | authorizeInvalid (msg : String)
  | attributeError
deriving DecidableEq, Repr

/-- A Python datetime value (year, month, day, hour, minute, second). -/
structure DateTime where
  year : Nat
  month : Nat
  day : Nat
  hour : Nat
  minute : Nat
  second : Nat
deriving DecidableEq, Repr

/-- Injective monotone key realising the lexicographic comparison of
datetime objects (fields of in-range datetimes stay below the radices
13, 32, 24, 60, 60). -/
def DateTime.key (t : DateTime) : Nat :=
  ((((t.year * 13 + t.month) * 32 + t.day) * 24 + t.hour) * 60 + t.minute) * 60 + t.second

/-- calendar.isleap from the Python standard library. -/
def isleap (y : Nat) : Bool :=
  y % 4 == 0 && (y % 100 != 0 || y % 400 == 0)

/-- calendar.mdays from the Python standard library (index 0 unused). -/
def mdays : List Nat :=
  [0, 31, 28, 31, 30, 31, 30, 31, 31, 30, 31, 30, 31]

/-- Second component of calendar.monthrange: the number of days of the
given month. -/
def monthrange_days (y m : Nat) : Nat :=
  mdays.getD m 0 + (if m == 2 && isleap y then 1 else 0)

/-- Python int(c) on a single character (ASCII): its decimal value when
it is a digit, otherwise a ValueError, modelled as none. -/
def charDigit? (c : Char) : Option Nat :=
  if c.isDigit then some (c.toNat - '0'.toNat) else none

/-- The list comprehension int-parsing every character of a string; a
single bad character makes the whole parse fail (ValueError). -/
def parseDigits : List Char → Option (List Nat)
  | [] => some []
  | c :: rest =>
    match charDigit? c, parseDigits rest with
    | some d, some ds => some (d :: ds)
    | _, _ => none

/-- The regex anchor $ of Python re: it matches at the end of the
string, or just before one final newline. -/
def endOk : List Char → Bool
  | [] => true
  | [c] => c == '\n'
  | _ => false

/-- Consume exactly n decimal digits, returning the rest of the input;
fails when a non-digit (or the end) is hit early. -/
def takeDigits : Nat → List Char → Option (List Char)
  | 0, l => some l
  | _ + 1, [] => none
  | n + 1, c :: rest => if c.isDigit then takeDigits n rest else none

/-- re.match of a pattern of the shape \d{lo,hi}$ against the whole
input (re.match anchors at the start; the brace repetition backtracks,
so any count between lo and hi may be used before the $). -/
def matchCount (lo hi : Nat) (l : List Char) : Bool :=
  (List.range (hi + 1)).any fun k =>
    lo ≤ k &&
      match takeDigits k l with
      | some rem => endOk rem
      | none => false

/-- re.match of the routing-number pattern of the source, the literal
regex \d9$ anchored at the start: one digit, then the character 9, then
the end anchor. -/
def routingShape (s : String) : Bool :=
  match s.toList with
  | c :: d :: rest => c.isDigit && d == '9' && endOk rest
  | _ => false

/-- re.match of the account-number pattern \d{1,20}$ of the source. -/
def accountShape (s : String) : Bool :=
  matchCount 1 20 s.toList

/-- Python str.lower on one character, over the ASCII range the inputs
of this code base live in. -/
def pyCharLower (c : Char) : Char :=
  if 'A' ≤ c ∧ c ≤ 'Z' then Char.ofNat (c.toNat + 32) else c

/-- Python str.lower (ASCII model). -/
def pyLower (s : String) : String :=
  String.mk (s.toList.map pyCharLower)

/-- ECheckAccount.ACCOUNT_TYPES. -/
def ACCOUNT_TYPES : List String :=
  ["checking", "businesschecking", "savings"]

/-- The state of an ECheckAccount object: the fields stored by its
initializer are kept verbatim (routing and account numbers already
pass through str, an identity on strings; the other three arguments are
stored untouched and may be None). -/
structure ECheckAccount where
  routing_number : String
  account_number : String
  account_type : Option String
  bank_name : Option String
  account_name : Option String
deriving DecidableEq, Repr

/-- ECheckAccount.__init__: it stores the five arguments and returns.
It performs no validation and never raises, hence the total result. -/
def ECheckAccount.construct (routing_number account_number : String)
    (account_type bank_name account_name : Option String) :
    Except PyError ECheckAccount :=
  .ok ⟨routing_number, account_number, account_type, bank_name, account_name⟩

/-- ECheckAccount.validate: routing-number shape check, account-number
shape check, then membership of account_type.lower() in ACCOUNT_TYPES.
When account_type is None, the attribute lookup lower on None raises an
AttributeError. No further checks appear in the source. -/
def ECheckAccount.validate (a : ECheckAccount) : Except PyError Unit :=
  if routingShape a.routing_number = false then
    .error (.authorizeInvalid "Routing number should be a 9 digit number.")
  else if accountShape a.account_number = false then
    .error (.authorizeInvalid "Account number should be a number between 1 and 20 digits.")
  else
    match a.account_type with
    | none => .error .attributeError
    | some t =>
      if (ACCOUNT_TYPES.contains (pyLower t)) = false then
        .error (.authorizeInvalid "Invalid account type.")
      else .ok ()

/-- ECheckAccount.safe_account_number: XXXX followed by the last four
characters of the account number. -/
def ECheckAccount.safe_account_number (a : ECheckAccount) : String :=
  "XXXX" ++ String.mk (a.account_number.toList.drop (a.account_number.toList.length - 4))

/-- ECheckAccount.safe_routing_number: XXXX followed by the last four
characters of the routing number. -/
def ECheckAccount.safe_routing_number (a : ECheckAccount) : String :=
  "XXXX" ++ String.mk (a.routing_number.toList.drop (a.routing_number.toList.length - 4))

/-- Follows the words of the spec, for comparison with the source: the
ABA/MICR weighted checksum on a list of nine digits d0..d8, namely
(7*(d0+d3+d6) + 3*(d1+d4+d7) + 9*(d2+d5)) mod 10 = d8. -/
def specAbaChecksumOk (ds : List Nat) : Bool :=
  match ds with
  | [d0, d1, d2, d3, d4, d5, d6, d7, d8] =>
    (7 * (d0 + d3 + d6) + 3 * (d1 + d4 + d7) + 9 * (d2 + d5)) % 10 == d8
  | _ => false

/-- re.match of the CVV pattern \d{3,4}$ of the source. -/
def cvvOk (s : String) : Bool :=
  matchCount 3 4 s.toList

/-- re.match of the visa pattern of CARD_TYPES, the regex starting with
the character 4, then \d{12}, then an optional group \d{3}, then $. -/
def visaMatch (l : List Char) : Bool :=
  match l with
  | '4' :: rest =>
    match takeDigits 12 rest with
    | some rem =>
      endOk rem ||
        match takeDigits 3 rem with
        | some rem2 => endOk rem2
        | none => false
    | none => false
  | _ => false

/-- re.match of the amex pattern of CARD_TYPES: 37, then \d{13}, then $. -/
def amexMatch (l : List Char) : Bool :=
  match l with
  | '3' :: '7' :: rest =>
    match takeDigits 13 rest with
    | some rem => endOk rem
    | none => false
  | _ => false

/-- re.match of the mc pattern of CARD_TYPES: 5, a character of the
class 1-5, then \d{14}, then $. -/
def mcMatch (l : List Char) : Bool :=
  match l with
  | '5' :: c :: rest =>
    ('1' ≤ c && c ≤ '5') &&
      match takeDigits 14 rest with
      | some rem => endOk rem
      | none => false
  | _ => false

/-- re.match of the discover pattern of CARD_TYPES: 6011 then \d{12}.
The pattern carries no $ anchor, so any suffix may follow. -/
def discoverMatch (l : List Char) : Bool :=
  match l with
  | '6' :: '0' :: '1' :: '1' :: rest => (takeDigits 12 rest).isSome
  | _ => false

/-- re.match of the diners pattern of CARD_TYPES: either 30, a
character of the class 0-5 and \d{11}, or one of 36 and 38 followed by
\d{12}; in both branches the $ anchor closes the pattern. -/
def dinersMatch (l : List Char) : Bool :=
  match l with
  | '3' :: '0' :: c :: rest =>
    ('0' ≤ c && c ≤ '5') &&
      match takeDigits 11 rest with
      | some rem => endOk rem
      | none => false
  | '3' :: '6' :: rest =>
    match takeDigits 12 rest with
    | some rem => endOk rem
    | none => false
  | '3' :: '8' :: rest =>
    match takeDigits 12 rest with
    | some rem => endOk rem
    | none => false
  | _ => false

/-- CARD_TYPES of the source, in the insertion order of the dict
literal; each name is paired with the matcher of its regex. -/
def CARD_TYPES : List (String × (List Char → Bool)) :=
  [("visa", visaMatch), ("amex", amexMatch), ("mc", mcMatch),
   ("discover", discoverMatch), ("diners", dinersMatch)]

/-- The state of a CreditCard object. Year, month and CVV pass through
str in the initializer and year and month are re-read with int in
exp_time; the round trip is the identity on the numeric values, which
the model keeps directly. -/
structure CreditCard where
  card_number : String
  exp_year : Nat
  exp_month : Nat
  cvv : String
  first_name : Option String
  last_name : Option String
deriving DecidableEq, Repr

/-- CreditCard.card_type: the first entry of CARD_TYPES whose regex
matches the card number under re.match, or None. -/
def CreditCard.card_type (c : CreditCard) : Option String :=
  (CARD_TYPES.find? fun p => p.2 c.card_number.toList).map Prod.fst

/-- CreditCard.exp_time: the datetime of the last day of the given
month (per calendar.monthrange) at 23:59:59. -/
def CreditCard.exp_time (exp_month exp_year : Nat) : DateTime :=
  ⟨exp_year, exp_month, monthrange_days exp_year exp_month, 23, 59, 59⟩

/-- CreditCard.expiration. -/
def CreditCard.expiration (c : CreditCard) : DateTime :=
  CreditCard.exp_time c.exp_month c.exp_year

/-- Every second element of a list: the slice num[::-2] applied to the
reversed list, so that everyOther l.reverse is num[::-2] itself. -/
def everyOther : List α → List α
  | [] => []
  | [x] => [x]
  | x :: _ :: rest => x :: everyOther rest

/-- sum(divmod(d * 2, 10)) from the Luhn comprehension of the source. -/
def pyDouble (d : Nat) : Nat :=
  d * 2 / 10 + d * 2 % 10

/-- The Luhn total of the source, literally
sum(num[::-2] + [sum(divmod(d * 2, 10)) for d in num[-2::-2]]):
num[::-2] walks the digits at odd 1-indexed positions from the right
and num[-2::-2] the even ones. -/
def luhnTotal (num : List Nat) : Nat :=
  (everyOther num.reverse ++ (everyOther num.reverse.tail).map pyDouble).sum

/-- CreditCard.validate, with datetime.now() passed explicitly: digit
parse, Luhn total divisible by ten, expiration not in the past, CVV
shape, recognised card type; the first failing check raises. -/
def CreditCard.validate (c : CreditCard) (now : DateTime) : Except PyError Unit :=
  match parseDigits c.card_number.toList with
  | none => .error (.authorizeInvalid "Credit card number is not valid.")
  | some num =>
    if luhnTotal num % 10 ≠ 0 then
      .error (.authorizeInvalid "Credit card number is not valid.")
    else if c.expiration.key < now.key then
      .error (.authorizeInvalid "Credit card is expired.")
    else if cvvOk c.cvv = false then
      .error (.authorizeInvalid "Credit card CVV is invalid format.")
    else if c.card_type = none then
      .error (.authorizeInvalid "Credit card number is not valid.")
    else .ok ()

/-- re.sub of \D by the empty string: strip every non-digit character. -/
def normalizeNumber (s : String) : String :=
  String.mk (s.toList.filter Char.isDigit)

/-- CreditCard.__init__, with datetime.now() passed explicitly: store
the normalized number and the other fields, then run validate; the
instance is produced only when validate raises nothing. -/
def CreditCard.construct (card_number : String) (exp_year exp_month : Nat)
    (cvv : String) (first_name last_name : Option String) (now : DateTime) :
    Except PyError CreditCard :=
  let c : CreditCard :=
    ⟨normalizeNumber card_number, exp_year, exp_month, cvv, first_name, last_name⟩
  match c.validate now with
  | .ok _ => .ok c
  | .error e => .error e

/-- CreditCard.safe_number: a run of asterisks in place of all but the
last four characters of the card number (the mask length is the Python
product of the asterisk and len - 4, empty when the number is short). -/
def CreditCard.safe_number (c : CreditCard) : String :=
  String.mk
    (List.replicate (c.card_number.toList.length - 4) '*' ++
      c.card_number.toList.drop (c.card_number.toList.length - 4))

/-- Follows the words of the spec, for comparison with the source: the
doubled-digit contribution of the Luhn check, d*2 reduced by nine when
it reaches ten. -/
def specDouble (d : Nat) : Nat :=
  if d * 2 ≥ 10 then d * 2 - 9 else d * 2

/-- Follows the words of the spec: walk the digits from the rightmost
one, adding digits at odd 1-indexed positions unchanged and the
specDouble image of digits at even positions. -/
def specLuhnGo : List Nat → Nat
  | [] => 0
  | [d] => d
  | d :: e :: rest => d + specDouble e + specLuhnGo rest

/-- Follows the words of the spec: the Luhn total of a digit list. -/
def specLuhnTotal (num : List Nat) : Nat :=
  specLuhnGo num.reverse

deriving instance DecidableEq for Except

/-! Helper lemmas. -/

theorem everyOther_cons_tail (e : α) (rest : List α) :
    everyOther (e :: rest) = e :: everyOther rest.tail := by
  cases rest <;> simp [everyOther]

theorem pyDouble_eq_specDouble (d : Nat) (h : d ≤ 9) :
    pyDouble d = specDouble d := by
  interval_cases d <;> rfl

theorem luhn_go_eq : ∀ l : List Nat, (∀ d ∈ l, d ≤ 9) →
    (everyOther l ++ (everyOther l.tail).map pyDouble).sum = specLuhnGo l
  | [], _ => by simp [everyOther, specLuhnGo]
  | [d], _ => by simp [everyOther, specLuhnGo]
  | d :: e :: rest, h => by
    have ih := luhn_go_eq rest fun x hx => h x (by simp [hx])
    have he : pyDouble e = specDouble e := pyDouble_eq_specDouble e (h e (by simp))
    simp only [everyOther, List.tail_cons, everyOther_cons_tail, List.map_cons,
      List.sum_append, List.sum_cons, specLuhnGo] at *
    omega

theorem endOk_eq_false : ∀ l : List Char, 2 ≤ l.length → endOk l = false
  | [], h => by simp at h
  | [_], h => by simp at h
  | _ :: _ :: _, _ => rfl

theorem parseDigits_isSome_of_all (l : List Char)
    (h : ∀ c ∈ l, c.isDigit = true) : (parseDigits l).isSome = true := by
  induction l with
  | nil => rfl
  | cons c rest ih =>
    have hc : charDigit? c = some (c.toNat - '0'.toNat) := by
      simp [charDigit?, h c (by simp)]
    obtain ⟨ds, hds⟩ :=
      Option.isSome_iff_exists.mp (ih fun x hx => h x (by simp [hx]))
    simp [parseDigits, hc, hds]

/-! Claim theorems. -/

/-- C1: the claim says ECheckAccount construction validates fail-fast
inside the constructor. It does not: the initializer stores its five
arguments and returns, raising nothing for any input, so an instance
violating the routing-number invariant is obtainable; on the
instance the tests build, validate itself reports an invalid routing
number. -/
theorem echeck_constructor_performs_no_validation :
    (∀ (r a : String) (t b n : Option String),
      ECheckAccount.construct r a t b n = Except.ok ⟨r, a, t, b, n⟩) ∧
    ECheckAccount.construct "1234567890" "123456" (some "checking")
        (some "First Bank") (some "John Doe") =
      Except.ok ⟨"1234567890", "123456", some "checking", some "First Bank",
        some "John Doe"⟩ ∧
    ECheckAccount.validate
        ⟨"1234567890", "123456", some "checking", some "First Bank",
          some "John Doe"⟩ =
      Except.error (.authorizeInvalid "Routing number should be a 9 digit number.") :=
  ⟨fun _ _ _ _ _ => rfl, rfl, by decide⟩

/-- C2: the claim says the routing-number shape check accepts exactly
the 9-digit strings. The regex in the source matches a digit followed
by the character 9, so the two-character string 29 is accepted while
the 9-digit string 021000021 is rejected; 12345678 and 1234567890 are
rejected as the claim states. -/
theorem echeck_routing_regex_evaluation :
    routingShape "29" = true ∧
    routingShape "021000021" = false ∧
    routingShape "12345678" = false ∧
    routingShape "1234567890" = false ∧
    ECheckAccount.validate
        ⟨"021000021", "123456", some "checking", some "First Bank",
          some "John Doe"⟩ =
      Except.error (.authorizeInvalid "Routing number should be a 9 digit number.") ∧
    ECheckAccount.validate
        ⟨"29", "1234567890", some "checking", some "First Bank",
          some "John Doe"⟩ = Except.ok () := by
  decide

/-- C3 counterexample: 021000021 satisfies the ABA weighted checksum of
the spec, yet validate rejects it with the routing-number error, so the
claim that a checksum-valid routing number is not rejected on that
ground is false on this code. -/
theorem echeck_aba_checksum_counterexample :
    specAbaChecksumOk [0, 2, 1, 0, 0, 0, 0, 2, 1] = true ∧
    parseDigits "021000021".toList = some [0, 2, 1, 0, 0, 0, 0, 2, 1] ∧
    ECheckAccount.validate
        ⟨"021000021", "1", some "savings", some "Bank", some "Jane Roe"⟩ =
      Except.error (.authorizeInvalid "Routing number should be a 9 digit number.") := by
  decide

/-- C3 amended: ECheckAccount.validate computes no ABA checksum at all;
every routing number of length nine, checksum-valid or not, is rejected
with the routing-number error, because the shape regex of the source
only ever matches two-character strings. -/
theorem echeck_nine_digit_always_rejected (a : ECheckAccount)
    (hlen : a.routing_number.toList.length = 9) :
    a.validate =
      Except.error (.authorizeInvalid "Routing number should be a 9 digit number.") := by
  have hshape : routingShape a.routing_number = false := by
    unfold routingShape
    cases hl : a.routing_number.toList with
    | nil => rfl
    | cons c t =>
      cases t with
      | nil => rfl
      | cons d rest =>
        rw [hl] at hlen
        simp only [List.length_cons] at hlen
        have : endOk rest = false := endOk_eq_false rest (by omega)
        simp [this]
  unfold ECheckAccount.validate
  rw [hshape]
  rfl

/-- C3 amended, witness at a concrete checksum-violating routing
number of length nine. -/
theorem echeck_nine_digit_always_rejected_witness :
    (⟨"987654321", "55", some "savings", none, none⟩ :
        ECheckAccount).routing_number.toList.length = 9 ∧
    (⟨"987654321", "55", some "savings", none, none⟩ :
        ECheckAccount).validate =
      Except.error (.authorizeInvalid "Routing number should be a 9 digit number.") :=
  ⟨by decide, echeck_nine_digit_always_rejected _ (by decide)⟩

/-- C4: the claim says a missing bank name or account holder name makes
validation fail with a field-specific error. The source checks neither
field: on inputs that pass the routing, account and type checks,
validate succeeds even though bank_name, account_name or both are
None. -/
theorem echeck_validate_ignores_names :
    ECheckAccount.validate
        ⟨"29", "123456", some "checking", none, some "John Doe"⟩ = Except.ok () ∧
    ECheckAccount.validate
        ⟨"29", "123456", some "checking", some "First Bank", none⟩ = Except.ok () ∧
    ECheckAccount.validate
        ⟨"29", "123456", some "checking", none, none⟩ = Except.ok () := by
  decide

/-- C5: the Luhn total of the source equals the spec formulation on
every digit list (odd 1-indexed positions from the right unchanged,
even positions contributing the digit sum of the doubled digit); when
the total is not divisible by ten, validate raises the invalid-number
error, and in particular construction with 4111111111111112 raises
it. -/
theorem creditcard_luhn_exact :
    (∀ num : List Nat, (∀ d ∈ num, d ≤ 9) → luhnTotal num = specLuhnTotal num) ∧
    (∀ (c : CreditCard) (now : DateTime) (num : List Nat),
      parseDigits c.card_number.toList = some num → luhnTotal num % 10 ≠ 0 →
      c.validate now = Except.error (.authorizeInvalid "Credit card number is not valid.")) ∧
    CreditCard.construct "4111111111111112" 2025 1 "911" none none
        ⟨2015, 1, 1, 0, 0, 0⟩ =
      Except.error (.authorizeInvalid "Credit card number is not valid.") := by
  refine ⟨?_, ?_, by decide⟩
  · intro num h
    exact luhn_go_eq num.reverse fun d hd => h d (List.mem_reverse.mp hd)
  · intro c now num hp hl
    unfold CreditCard.validate
    rw [hp]
    simp [hl]

/-- C5, witness: the Luhn identity at a concrete digit list, and the
invalid-number error at the concrete card of the claim. -/
theorem creditcard_luhn_exact_witness :
    luhnTotal [4, 0, 1, 2, 8, 8, 8, 8, 1, 8, 8, 8, 9] =
      specLuhnTotal [4, 0, 1, 2, 8, 8, 8, 8, 1, 8, 8, 8, 9] ∧
    CreditCard.validate ⟨"4111111111111112", 2025, 1, "911", none, none⟩
        ⟨2015, 1, 1, 0, 0, 0⟩ =
      Except.error (.authorizeInvalid "Credit card number is not valid.") :=
  ⟨creditcard_luhn_exact.1 _ (by decide),
   creditcard_luhn_exact.2.1 _ _ [4, 1, 1, 1, 1, 1, 1, 1, 1, 1, 1, 1, 1, 1, 1, 2]
     (by decide) (by decide)⟩

/-- C6: each of the five known test numbers constructs successfully
(valid CVV, expiration in the future of the supplied clock) and
card_type names the expected issuer; the matchers are anchored at the
start but not at the end unless the pattern carries $ (the discover
pattern accepts a longer string by prefix, while a number with a
leading stray character matches nothing), and each test number matches
exactly one pattern of CARD_TYPES. -/
theorem creditcard_card_type_detection :
    (CreditCard.construct "370000000000002" 2025 1 "911" none none
        ⟨2015, 1, 1, 0, 0, 0⟩).map CreditCard.card_type = Except.ok (some "amex") ∧
    (CreditCard.construct "5555555555554444" 2025 1 "911" none none
        ⟨2015, 1, 1, 0, 0, 0⟩).map CreditCard.card_type = Except.ok (some "mc") ∧
    (CreditCard.construct "6011000000000012" 2025 1 "911" none none
        ⟨2015, 1, 1, 0, 0, 0⟩).map CreditCard.card_type = Except.ok (some "discover") ∧
    (CreditCard.construct "4007000000027" 2025 1 "911" none none
        ⟨2015, 1, 1, 0, 0, 0⟩).map CreditCard.card_type = Except.ok (some "visa") ∧
    (CreditCard.construct "38000000000006" 2025 1 "911" none none
        ⟨2015, 1, 1, 0, 0, 0⟩).map CreditCard.card_type = Except.ok (some "diners") ∧
    CreditCard.card_type ⟨"6011000000000012999", 2025, 1, "911", none, none⟩ =
      some "discover" ∧
    CreditCard.card_type ⟨"x370000000000002", 2025, 1, "911", none, none⟩ = none ∧
    CARD_TYPES.countP (fun p => p.2 "370000000000002".toList) = 1 ∧
    CARD_TYPES.countP (fun p => p.2 "5555555555554444".toList) = 1 ∧
    CARD_TYPES.countP (fun p => p.2 "6011000000000012".toList) = 1 ∧
    CARD_TYPES.countP (fun p => p.2 "4007000000027".toList) = 1 ∧
    CARD_TYPES.countP (fun p => p.2 "38000000000006".toList) = 1 := by
  decide

/-- C7: for a card expiring in January the expiration instant is the
31st at 23:59:59 of that year, and once the digit-parse and Luhn steps
pass, validate reports the expired error exactly when the expiration
instant is strictly before the supplied clock. -/
theorem creditcard_expiration_exact :
    (∀ c : CreditCard, c.exp_month = 1 →
      c.expiration = ⟨c.exp_year, 1, 31, 23, 59, 59⟩) ∧
    (∀ (c : CreditCard) (now : DateTime) (num : List Nat),
      parseDigits c.card_number.toList = some num → luhnTotal num % 10 = 0 →
      (c.validate now = Except.error (.authorizeInvalid "Credit card is expired.") ↔
        c.expiration.key < now.key)) := by
  constructor
  · intro c h
    simp [CreditCard.expiration, CreditCard.exp_time, h, monthrange_days, mdays, isleap]
  · intro c now num hp hl
    unfold CreditCard.validate
    rw [hp]
    simp only [hl, ne_eq, not_true_eq_false, if_false]
    by_cases hexp : c.expiration.key < now.key
    · simp [hexp]
    · simp only [hexp, if_false, iff_false]
      split_ifs <;> simp

/-- C7, witness: a concrete January 2020 card checked against a clock
in June 2021. -/
theorem creditcard_expiration_exact_witness :
    (⟨"4012888818888", 2020, 1, "911", none, none⟩ : CreditCard).expiration =
      ⟨2020, 1, 31, 23, 59, 59⟩ ∧
    (CreditCard.validate ⟨"4012888818888", 2020, 1, "911", none, none⟩
        ⟨2021, 6, 1, 0, 0, 0⟩ =
        Except.error (.authorizeInvalid "Credit card is expired.") ↔
      (⟨"4012888818888", 2020, 1, "911", none, none⟩ : CreditCard).expiration.key <
        (⟨2021, 6, 1, 0, 0, 0⟩ : DateTime).key) :=
  ⟨creditcard_expiration_exact.1 _ rfl,
   creditcard_expiration_exact.2 _ _ [4, 0, 1, 2, 8, 8, 8, 8, 1, 8, 8, 8, 8]
     (by decide) (by decide)⟩

/-- C8: the card mask keeps the original length, an asterisk run
followed by the last four characters, while both eCheck masks are the
fixed prefix XXXX followed by the last four characters, dropping the
rest of the length (eight characters for a nine-digit routing
number). -/
theorem masking_formats :
    (∀ c : CreditCard, 4 ≤ c.card_number.toList.length →
      c.safe_number.toList.length = c.card_number.toList.length ∧
      c.safe_number.toList.take (c.card_number.toList.length - 4) =
        List.replicate (c.card_number.toList.length - 4) '*' ∧
      c.safe_number.toList.drop (c.card_number.toList.length - 4) =
        c.card_number.toList.drop (c.card_number.toList.length - 4)) ∧
    CreditCard.safe_number ⟨"4111111111111111", 2025, 1, "911", none, none⟩ =
      "************1111" ∧
    ECheckAccount.safe_routing_number
        ⟨"021000021", "1234567890", some "checking", some "First Bank",
          some "John Doe"⟩ = "XXXX0021" ∧
    ECheckAccount.safe_account_number
        ⟨"021000021", "1234567890", some "checking", some "First Bank",
          some "John Doe"⟩ = "XXXX7890" ∧
    (ECheckAccount.safe_routing_number
        ⟨"021000021", "1234567890", some "checking", some "First Bank",
          some "John Doe"⟩).toList.length = 8 := by
  refine ⟨?_, by decide, by decide, by decide, by decide⟩
  intro c h
  show (List.replicate _ '*' ++ _).length = _ ∧
    (List.replicate _ '*' ++ _).take _ = _ ∧
    (List.replicate _ '*' ++ _).drop _ = _
  refine ⟨?_, ?_, ?_⟩
  · simp only [List.length_append, List.length_replicate, List.length_drop]
    omega
  · exact List.take_left' (List.length_replicate _ _)
  · exact List.drop_left' (List.length_replicate _ _)

/-- C8, witness at the concrete sixteen-digit card of the claim. -/
theorem masking_formats_witness :
    4 ≤ (⟨"4111111111111111", 2025, 1, "911", none, none⟩ :
        CreditCard).card_number.toList.length ∧
    ((⟨"4111111111111111", 2025, 1, "911", none, none⟩ :
        CreditCard).safe_number.toList.length = 16 ∧
      (⟨"4111111111111111", 2025, 1, "911", none, none⟩ :
          CreditCard).safe_number.toList.take 12 = List.replicate 12 '*' ∧
      (⟨"4111111111111111", 2025, 1, "911", none, none⟩ :
          CreditCard).safe_number.toList.drop 12 =
        (⟨"4111111111111111", 2025, 1, "911", none, none⟩ :
            CreditCard).card_number.toList.drop 12) :=
  ⟨by decide, masking_formats.1 _ (by decide)⟩

/-- C9: the constructor strips every non-digit character, so the stored
card number is all digits and the per-digit int parse of validate
always succeeds: the ValueError branch cannot be taken on a
constructor-normalized number. -/
theorem creditcard_normalization_digits (s : String) :
    (normalizeNumber s).toList.all Char.isDigit = true ∧
    (parseDigits (normalizeNumber s).toList).isSome = true := by
  have hall : ∀ c ∈ (normalizeNumber s).toList, c.isDigit = true := by
    intro c hc
    have hmem : c ∈ s.toList.filter Char.isDigit := hc
    exact (List.mem_filter.mp hmem).2
  refine ⟨?_, parseDigits_isSome_of_all _ hall⟩
  simpa [List.all_eq_true] using hall

/-- C10: the initializer stores account_type unconverted (None by
default), and on any stored account whose earlier routing and account
checks pass, a None account_type makes validate fail with an
AttributeError, a different error kind from AuthorizeInvalidError. -/
theorem echeck_none_account_type_attribute_error :
    (∀ (r a : String) (t b n : Option String),
      (ECheckAccount.construct r a t b n).map ECheckAccount.account_type =
        Except.ok t) ∧
    (∀ acc : ECheckAccount, acc.account_type = none →
      routingShape acc.routing_number = true →
      accountShape acc.account_number = true →
      acc.validate = Except.error PyError.attributeError) ∧
    (∀ msg : String, PyError.attributeError ≠ PyError.authorizeInvalid msg) := by
  refine ⟨fun _ _ _ _ _ => rfl, ?_, fun msg h => by cases h⟩
  intro acc ht hr ha
  unfold ECheckAccount.validate
  rw [hr, ha, ht]
  rfl

/-- C10, witness: the account built from the constructor defaults for
everything but the number fields. -/
theorem echeck_none_account_type_witness :
    (⟨"29", "123", none, none, none⟩ : ECheckAccount).account_type = none ∧
    routingShape "29" = true ∧
    accountShape "123" = true ∧
    (⟨"29", "123", none, none, none⟩ : ECheckAccount).validate =
      Except.error PyError.attributeError :=
  ⟨rfl, by decide, by decide,
   echeck_none_account_type_attribute_error.2.1 _ rfl (by decide) (by decide)⟩

end AuthorizeSauce
